import Mathlib

/-!
Shallow embedding of the interactive canvas core of `src/components/P5Canvas.tsx`.

The p5 sketch closes over mutable variables `img`, `highlightLayer`, `view`,
`lastMouse`, `isDragging` and `currentProps`; we gather them into `SketchState`.
Pixel dimensions and coordinates are JS numbers; we embed them as rationals
(all the arithmetic the claims touch is exact in ℚ).

Callbacks to the host (`onCompositeImageReady`, `onGenerationTriggerConsumed`,
`onBrushSizeChange`) are modelled as an emitted `Event` list.  Image loads are
asynchronous in the source: `p.loadImage(url, ok, err)` starts a load and the
continuation runs later.  We model this by having `updateWithProps` return the
list of load `Request`s it starts, and by giving each load continuation its own
step function (`displayLoadComplete`, `fullResLoadSuccess`, `fullResLoadFailure`)
that takes the values the closure reads at completion time.  The browser's
`canvas.toDataURL` is an external collaborator and is passed in as an
uninterpreted function `encode : Composite → String`.
-/

namespace DocBanana

/-- A decoded raster with known pixel dimensions (`p5.Image` / the loaded
image handed to a load callback). -/
structure Raster where
  width : ℚ
  height : ℚ
deriving DecidableEq, Repr

/-- The sketch variable `img : p5.Image | undefined`: `undefined` before any
load and after the display URL is removed, the (not yet populated) image object
returned by `p.loadImage` while a load is in flight, and the decoded raster
once the success callback has run.  JS truthiness of `img` is false only for
`undefined`. -/
inductive ImgState where
  | undef : ImgState
  | loading (url : String) : ImgState
  | loaded (r : Raster) : ImgState
deriving DecidableEq, Repr

/-- JS truthiness of the `img` variable (`!img` is true only when it is
`undefined`). -/
def ImgState.truthy : ImgState → Bool
  | .undef => false
  | .loading _ => true
  | .loaded _ => true

/-- One painted stroke segment: `highlightLayer.line(prevImgX, prevImgY, imgX,
imgY)` with the stroke color and stroke weight set just before it. -/
structure Segment where
  fromX : ℚ
  fromY : ℚ
  toX : ℚ
  toY : ℚ
  color : String
  width : ℚ
deriving DecidableEq, Repr

/-- The `highlightLayer` graphics buffer: its pixel dimensions and the strokes
accumulated in it (`clear()` empties the strokes, `resizeCanvas` sets the
dimensions). -/
structure HLayer where
  width : ℚ
  height : ℚ
  strokes : List Segment
deriving DecidableEq, Repr

/-- The `view` record: `{ x, y, zoom }`. -/
structure View where
  x : ℚ
  y : ℚ
  zoom : ℚ
deriving DecidableEq, Repr

/-- The props consumed by the sketch (the three callback props are modelled as
emitted events instead). -/
structure Props where
  displayImgUrl : Option String
  fullResImgUrl : Option String
  highlighting : Bool
  brushSize : ℚ
  highlightColor : String
  generationTrigger : Bool
deriving DecidableEq, Repr

/-- JS truthiness of a `string | null` prop: `null` and the empty string are
falsy. -/
def strTruthy : Option String → Bool
  | none => false
  | some s => !(s == "")

/-- The mutable state closed over by the sketch. -/
structure SketchState where
  img : ImgState
  highlightLayer : Option HLayer
  view : View
  lastMouseX : ℚ
  lastMouseY : ℚ
  isDragging : Bool
  currentProps : Props
deriving DecidableEq, Repr

/-- A host callback invocation. -/
inductive Event where
  | compositeReady (payload : Option String) : Event
  | triggerConsumed : Event
  | brushSizeChange (newSize : ℚ) : Event
deriving DecidableEq, Repr

/-- An asynchronous image load started by `p.loadImage`. -/
inductive Request where
  | displayLoad (url : String) : Request
  | fullResLoad (url : String) : Request
deriving DecidableEq, Repr

def Event.isConsumed : Event → Bool
  | .triggerConsumed => true
  | _ => false

def Event.isReady : Event → Bool
  | .compositeReady _ => true
  | _ => false

/-- Number of `onGenerationTriggerConsumed` invocations in an event list. -/
def countConsumed (evs : List Event) : Nat := evs.countP Event.isConsumed

/-- Number of `onCompositeImageReady` invocations in an event list. -/
def countReady (evs : List Event) : Nat := evs.countP Event.isReady

/-- Result of one `updateWithProps` call: the new closure state, the host
callbacks invoked synchronously, and the image loads started. -/
structure UpdateResult where
  state : SketchState
  events : List Event
  requests : List Request
deriving DecidableEq, Repr

/-- `p.updateWithProps(newProps)` (P5Canvas.tsx lines 31–91), synchronous part.
The display-image block either starts a display load (the fit/resize work lives
in its callback, `displayLoadComplete`) or, when the URL was removed, drops
`img` and clears the highlight layer.  The trigger block runs on the false→true
edge of `generationTrigger`: with a highlight layer and a truthy
`fullResImgUrl` it starts a full-resolution load whose callbacks consume the
trigger, otherwise it consumes the trigger immediately.  Finally
`currentProps := newProps`. -/
def updateWithProps (s : SketchState) (newProps : Props) : UpdateResult :=
  let step1 : SketchState × List Request :=
    if strTruthy newProps.displayImgUrl ∧ newProps.displayImgUrl ≠ s.currentProps.displayImgUrl then
      ({ s with img := .loading (newProps.displayImgUrl.getD "") },
       [Request.displayLoad (newProps.displayImgUrl.getD "")])
    else if ¬ strTruthy newProps.displayImgUrl ∧ strTruthy s.currentProps.displayImgUrl then
      ({ s with img := .undef,
                highlightLayer := s.highlightLayer.map fun L => { L with strokes := [] } }, [])
    else (s, [])
  let s1 := step1.1
  let step2 : List Event × List Request :=
    if newProps.generationTrigger ∧ ¬ s.currentProps.generationTrigger then
      if s1.highlightLayer.isSome ∧ strTruthy newProps.fullResImgUrl then
        ([], [Request.fullResLoad (newProps.fullResImgUrl.getD "")])
      else
        ([Event.triggerConsumed], [])
    else ([], [])
  { state := { s1 with currentProps := newProps },
    events := step2.1,
    requests := step1.2 ++ step2.2 }

/-- Success callback of the display-image load (P5Canvas.tsx lines 33–54):
auto-fit the viewport to the loaded image and clear-and-resize (or create) the
highlight layer at the image's pixel dimensions.  `canvasW`/`canvasH` are
`p.width`/`p.height` at callback time. -/
def displayLoadComplete (canvasW canvasH : ℚ) (loadedImg : Raster) (s : SketchState) : SketchState :=
  let imgAspectRatio := loadedImg.width / loadedImg.height
  let canvasAspectRatio := canvasW / canvasH
  let zoom :=
    if imgAspectRatio > canvasAspectRatio then
      canvasW / loadedImg.width * (0.95 : ℚ)
    else
      canvasH / loadedImg.height * (0.95 : ℚ)
  let vx := (canvasW - loadedImg.width * zoom) / 2
  let vy := (canvasH - loadedImg.height * zoom) / 2
  let layer : Option HLayer :=
    match s.highlightLayer with
    | some L => some { L with strokes := [], width := loadedImg.width, height := loadedImg.height }
    | none => some { width := loadedImg.width, height := loadedImg.height, strokes := [] }
  { s with img := .loaded loadedImg,
           view := { x := vx, y := vy, zoom := zoom },
           highlightLayer := layer }

/-- JS `String.prototype.split` restricted to a single-character separator,
on the character list. -/
def splitOnChar (c : Char) : List Char → List (List Char)
  | [] => [[]]
  | x :: xs =>
    if x = c then [] :: splitOnChar c xs
    else
      match splitOnChar c xs with
      | [] => [[x]]
      | y :: ys => (x :: y) :: ys

/-- `dataUrl.split(',')` as in P5Canvas.tsx line 75. -/
def jsSplitComma (s : String) : List String :=
  (splitOnChar ',' s.data).map fun l => String.mk l

/-- The flattened composite drawn in the full-resolution load callback
(P5Canvas.tsx lines 64–73): a buffer of the full-resolution raster's size, the
raster drawn at the origin, then the highlight layer drawn with tint alpha 128
stretched to the buffer's full dimensions. -/
structure Composite where
  width : ℚ
  height : ℚ
  base : Raster
  overlay : HLayer
  tintAlpha : ℚ
deriving DecidableEq, Repr

/-- Success callback of the full-resolution load (P5Canvas.tsx lines 63–79):
build the composite, encode it (`encode` stands for the browser's
`toDataURL('image/png')`), emit the part after the first comma of the data URL
to `onCompositeImageReady` (`undefined`, i.e. `none`, when the string has no
comma), then `onGenerationTriggerConsumed`.  `highlightLayer` is the layer the
closure reads at completion time. -/
def fullResLoadSuccess (encode : Composite → String) (highlightLayer : HLayer)
    (fullResImage : Raster) : List Event :=
  let finalComposite : Composite :=
    { width := fullResImage.width, height := fullResImage.height,
      base := fullResImage, overlay := highlightLayer, tintAlpha := 128 }
  let dataUrl := encode finalComposite
  [Event.compositeReady ((jsSplitComma dataUrl).get? 1), Event.triggerConsumed]

/-- Error callback of the full-resolution load (P5Canvas.tsx lines 80–83):
consume the trigger, emit no artifact. -/
def fullResLoadFailure : List Event := [Event.triggerConsumed]

/-- p5's `constrain(n, low, high)` = `max(min(n, high), low)`. -/
def constrain (n low high : ℚ) : ℚ := max (min n high) low

/-- `p.mousePressed` (P5Canvas.tsx lines 131–138). -/
def mousePressed (canvasW canvasH mouseX mouseY : ℚ) (mouseButtonLeft : Bool)
    (s : SketchState) : SketchState :=
  if mouseX < 0 ∨ mouseX > canvasW ∨ mouseY < 0 ∨ mouseY > canvasH then s
  else if mouseButtonLeft ∧ ¬ s.currentProps.highlighting then
    { s with isDragging := true, lastMouseX := mouseX, lastMouseY := mouseY }
  else s

/-- `p.mouseReleased` (P5Canvas.tsx line 140).  The source handler reads no
coordinates and performs no bounds check; the two coordinate arguments are the
event's position, which it ignores. -/
def mouseReleased (mouseX mouseY : ℚ) (s : SketchState) : SketchState :=
  { s with isDragging := false }

/-- `p.mouseDragged` (P5Canvas.tsx lines 142–162). -/
def mouseDragged (canvasW canvasH mouseX mouseY pmouseX pmouseY : ℚ)
    (s : SketchState) : SketchState :=
  if ¬ s.img.truthy ∨ mouseX < 0 ∨ mouseX > canvasW ∨ mouseY < 0 ∨ mouseY > canvasH then s
  else if s.isDragging ∧ ¬ s.currentProps.highlighting then
    { s with view := { s.view with x := s.view.x + (mouseX - s.lastMouseX),
                                   y := s.view.y + (mouseY - s.lastMouseY) },
             lastMouseX := mouseX, lastMouseY := mouseY }
  else
    match s.currentProps.highlighting, s.highlightLayer with
    | true, some L =>
      let imgX := (mouseX - s.view.x) / s.view.zoom
      let imgY := (mouseY - s.view.y) / s.view.zoom
      let prevImgX := (pmouseX - s.view.x) / s.view.zoom
      let prevImgY := (pmouseY - s.view.y) / s.view.zoom
      let seg : Segment :=
        { fromX := prevImgX, fromY := prevImgY, toX := imgX, toY := imgY,
          color := s.currentProps.highlightColor,
          width := s.currentProps.brushSize / s.view.zoom }
      { s with highlightLayer := some { L with strokes := L.strokes ++ [seg] } }
    | _, _ => s

/-- `p.mouseWheel` (P5Canvas.tsx lines 164–186).  Returns the new state and
the host callbacks invoked. -/
def mouseWheel (canvasW canvasH x y deltaY : ℚ) (s : SketchState) :
    SketchState × List Event :=
  if x < 0 ∨ x > canvasW ∨ y < 0 ∨ y > canvasH then (s, [])
  else
    let direction : ℚ := if deltaY > 0 then -1 else 1
    if s.currentProps.highlighting then
      let newSize := s.currentProps.brushSize + direction * 5
      (s, [Event.brushSizeChange newSize])
    else
      let zoomFactor : ℚ := 0.05
      let newZoom := s.view.zoom * (1 + direction * zoomFactor)
      let zoom := constrain newZoom (0.1 : ℚ) 10
      if zoom ≠ s.view.zoom then
        ({ s with view := { x := x - (x - s.view.x) * (zoom / s.view.zoom),
                            y := y - (y - s.view.y) * (zoom / s.view.zoom),
                            zoom := zoom } }, [])
      else (s, [])

/-! ### Demo fixtures (concrete inputs used by witnesses) -/

def demoProps : Props where
  displayImgUrl := none
  fullResImgUrl := none
  highlighting := false
  brushSize := 40
  highlightColor := "#FFFF00"
  generationTrigger := false

def demoState : SketchState where
  img := .undef
  highlightLayer := none
  view := { x := 0, y := 0, zoom := 1 }
  lastMouseX := 0
  lastMouseY := 0
  isDragging := false
  currentProps := demoProps

def demoLayer : HLayer where
  width := 800
  height := 600
  strokes := []

def demoFullRes : Raster where
  width := 1600
  height := 1200

/-- A state after a successful display load: image decoded, layer allocated. -/
def loadedState : SketchState :=
  { demoState with
      img := .loaded { width := 800, height := 600 },
      highlightLayer := some demoLayer,
      currentProps := { demoProps with displayImgUrl := some "doc.png" } }

/-- Props carrying a trigger edge with no image ever supplied. -/
def trigProps : Props := { demoProps with generationTrigger := true }

/-- A fixed stand-in for the browser's PNG encoder. -/
def demoEncode : Composite → String := fun _ => "data:image/png;base64,iVBORw0KGgo"

/-! ### Helper lemmas -/

theorem splitOnChar_of_not_mem {c : Char} {l : List Char} (h : c ∉ l) :
    splitOnChar c l = [l] := by
  induction l with
  | nil => rfl
  | cons x xs ih =>
    have hx : ¬ x = c := fun he => h (by simp [he])
    have hxs : c ∉ xs := fun hc => h (List.mem_cons_of_mem _ hc)
    simp [splitOnChar, hx, ih hxs]

theorem splitOnChar_append_sep {c : Char} {pre l : List Char} (hpre : c ∉ pre) :
    splitOnChar c (pre ++ c :: l) = pre :: splitOnChar c l := by
  induction pre with
  | nil => simp [splitOnChar]
  | cons x xs ih =>
    have hx : ¬ x = c := fun he => hpre (by simp [he])
    have hxs : c ∉ xs := fun hc => hpre (List.mem_cons_of_mem _ hc)
    simp [splitOnChar, hx, ih hxs]

/-- Splitting a well-formed PNG data URL at commas yields the base64 payload
at index 1. -/
theorem jsSplitComma_dataUrl {b64 : String} (h : ',' ∉ b64.data) :
    jsSplitComma ("data:image/png;base64," ++ b64) = ["data:image/png;base64", b64] := by
  have hdata : ("data:image/png;base64," ++ b64).data
      = "data:image/png;base64".data ++ ',' :: b64.data := by
    rw [String.data_append]
    rfl
  have hpre : ',' ∉ "data:image/png;base64".data := by decide
  rw [jsSplitComma, hdata, splitOnChar_append_sep hpre, splitOnChar_of_not_mem h]
  rfl

theorem constrain_mem (n : ℚ) {low high : ℚ} (h : low ≤ high) :
    low ≤ constrain n low high ∧ constrain n low high ≤ high :=
  ⟨le_max_right _ _, max_le (min_le_right _ _) h⟩

/-! ### Claims -/

/-- C3: after any DocumentImage load completes, the highlight layer exists,
its pixel dimensions equal the loaded image's pixel dimensions, and it holds
no strokes (the replacement cleared and resized it before any stroke could be
painted against it). -/
theorem C3_layer_matches_image_after_load (canvasW canvasH : ℚ) (r : Raster)
    (s : SketchState) :
    (displayLoadComplete canvasW canvasH r s).highlightLayer
      = some { width := r.width, height := r.height, strokes := [] } := by
  rcases hL : s.highlightLayer with _ | L <;> simp [displayLoadComplete, hL]

set_option maxHeartbeats 800000 in
/-- C5 (counterexample): the auto-fit zoom applied when an image load
completes is not clamped to [0.1, 10]: a 10×10 image loading into a 1000×1000
canvas yields zoom = 95. -/
theorem C5_counterexample :
    (displayLoadComplete 1000 1000 { width := 10, height := 10 } demoState).view.zoom = 95
    ∧ ¬ (displayLoadComplete 1000 1000 { width := 10, height := 10 } demoState).view.zoom ≤ 10 := by
  have h : (displayLoadComplete 1000 1000 { width := 10, height := 10 } demoState).view.zoom
      = 95 := by
    simp only [displayLoadComplete]
    norm_num
  exact ⟨h, by rw [h]; norm_num⟩

/-- C5 (amended): every wheel-zoom adjustment leaves the zoom in [0.1, 10]
(clamped at the boundaries); the auto-fit zoom on image load is not clamped
and can leave that interval. -/
theorem C5_wheel_zoom_clamped (canvasW canvasH x y deltaY : ℚ) (s : SketchState)
    (hin : ¬ (x < 0 ∨ x > canvasW ∨ y < 0 ∨ y > canvasH))
    (hnh : s.currentProps.highlighting = false) :
    (0.1 : ℚ) ≤ (mouseWheel canvasW canvasH x y deltaY s).1.view.zoom
    ∧ (mouseWheel canvasW canvasH x y deltaY s).1.view.zoom ≤ 10 := by
  have hb : (0.1 : ℚ) ≤ 10 := by norm_num
  unfold mouseWheel
  rw [if_neg hin]
  simp only [hnh, Bool.false_eq_true, if_false]
  split <;> split
  · exact constrain_mem _ hb
  · next hne =>
    push_neg at hne
    rw [← hne]
    exact constrain_mem _ hb
  · exact constrain_mem _ hb
  · next hne =>
    push_neg at hne
    rw [← hne]
    exact constrain_mem _ hb

/-- C5 (amended, witness): concrete wheel-zoom at (50, 40) on a 100×100
canvas. -/
theorem C5_witness :
    ¬ ((50:ℚ) < 0 ∨ (50:ℚ) > 100 ∨ (40:ℚ) < 0 ∨ (40:ℚ) > 100)
    ∧ demoState.currentProps.highlighting = false
    ∧ ((0.1 : ℚ) ≤ (mouseWheel 100 100 50 40 1 demoState).1.view.zoom
      ∧ (mouseWheel 100 100 50 40 1 demoState).1.view.zoom ≤ 10) :=
  ⟨by norm_num, rfl,
   C5_wheel_zoom_clamped 100 100 50 40 1 demoState (by norm_num) rfl⟩

/-- C6: when a DocumentImage load completes, the zoom is set to
min(canvasW/imageW, canvasH/imageH) × 0.95 and the offsets center the scaled
image in the canvas. -/
theorem C6_autofit_centers_image (canvasW canvasH : ℚ) (r : Raster) (s : SketchState)
    (hw : 0 < r.width) (hh : 0 < r.height) (hcw : 0 < canvasW) (hch : 0 < canvasH) :
    (displayLoadComplete canvasW canvasH r s).view.zoom
      = min (canvasW / r.width) (canvasH / r.height) * (0.95 : ℚ)
    ∧ (displayLoadComplete canvasW canvasH r s).view.x
      = (canvasW - r.width * (displayLoadComplete canvasW canvasH r s).view.zoom) / 2
    ∧ (displayLoadComplete canvasW canvasH r s).view.y
      = (canvasH - r.height * (displayLoadComplete canvasW canvasH r s).view.zoom) / 2 := by
  have key : (if r.width / r.height > canvasW / canvasH
        then canvasW / r.width * (0.95 : ℚ)
        else canvasH / r.height * (0.95 : ℚ))
      = min (canvasW / r.width) (canvasH / r.height) * (0.95 : ℚ) := by
    split_ifs with hgt
    · have h1 : canvasW * r.height < r.width * canvasH := (div_lt_div_iff hch hh).mp hgt
      have h2 : canvasW / r.width ≤ canvasH / r.height := by
        rw [div_le_div_iff hw hh]
        linarith [mul_comm r.width canvasH]
      rw [min_eq_left h2]
    · push_neg at hgt
      have h1 : r.width * canvasH ≤ canvasW * r.height := (div_le_div_iff hh hch).mp hgt
      have h2 : canvasH / r.height ≤ canvasW / r.width := by
        rw [div_le_div_iff hh hw]
        linarith [mul_comm r.width canvasH]
      rw [min_eq_right h2]
  refine ⟨?_, ?_, ?_⟩
  · simp only [displayLoadComplete]
    rw [← key]
  · rfl
  · rfl

/-- C6 (witness): an 80×40 image loading into a 200×100 canvas. -/
theorem C6_witness :
    (0:ℚ) < (Raster.mk 80 40).width
    ∧ (0:ℚ) < (Raster.mk 80 40).height
    ∧ (0:ℚ) < (200:ℚ)
    ∧ (0:ℚ) < (100:ℚ)
    ∧ ((displayLoadComplete 200 100 (Raster.mk 80 40) demoState).view.zoom
        = min ((200:ℚ) / (Raster.mk 80 40).width) ((100:ℚ) / (Raster.mk 80 40).height)
            * (0.95 : ℚ)
      ∧ (displayLoadComplete 200 100 (Raster.mk 80 40) demoState).view.x
        = ((200:ℚ) - (Raster.mk 80 40).width
            * (displayLoadComplete 200 100 (Raster.mk 80 40) demoState).view.zoom) / 2
      ∧ (displayLoadComplete 200 100 (Raster.mk 80 40) demoState).view.y
        = ((100:ℚ) - (Raster.mk 80 40).height
            * (displayLoadComplete 200 100 (Raster.mk 80 40) demoState).view.zoom) / 2) :=
  ⟨by norm_num, by norm_num, by norm_num, by norm_num,
   C6_autofit_centers_image 200 100 (Raster.mk 80 40) demoState (by norm_num) (by norm_num)
     (by norm_num) (by norm_num)⟩

/-- Algebraic core of the wheel-zoom pivot update: the pivot's image-space
coordinate is unchanged. -/
theorem pivot_fixed {p v z Z : ℚ} (hz : z ≠ 0) (hZ : Z ≠ 0) :
    (p - (p - (p - v) * (Z / z))) / Z = (p - v) / z := by
  field_simp
  ring

/-- C4: the screen point used as the wheel-zoom pivot maps to the same
image-space coordinate ((c − offset)/zoom) before and after the wheel event,
for any state with nonzero zoom while not highlighting. -/
theorem C4_wheel_zoom_fixed_point (canvasW canvasH x y deltaY : ℚ) (s : SketchState)
    (hnh : s.currentProps.highlighting = false)
    (hz : s.view.zoom ≠ 0) :
    (x - (mouseWheel canvasW canvasH x y deltaY s).1.view.x)
        / (mouseWheel canvasW canvasH x y deltaY s).1.view.zoom
      = (x - s.view.x) / s.view.zoom
    ∧ (y - (mouseWheel canvasW canvasH x y deltaY s).1.view.y)
        / (mouseWheel canvasW canvasH x y deltaY s).1.view.zoom
      = (y - s.view.y) / s.view.zoom := by
  have hZn : ∀ n : ℚ, constrain n (0.1 : ℚ) 10 ≠ 0 := fun n =>
    ne_of_gt (lt_of_lt_of_le (by norm_num) (constrain_mem n (by norm_num)).1)
  unfold mouseWheel
  split
  · exact ⟨rfl, rfl⟩
  · simp only [hnh, Bool.false_eq_true, if_false]
    split <;> split <;>
      first
        | exact ⟨rfl, rfl⟩
        | exact ⟨pivot_fixed hz (hZn _), pivot_fixed hz (hZn _)⟩

/-- C4 (witness): concrete instance, a wheel-zoom at (50, 40) on the demo
state. -/
theorem C4_witness :
    demoState.currentProps.highlighting = false
    ∧ demoState.view.zoom ≠ 0
    ∧ ((50 - (mouseWheel 100 100 50 40 1 demoState).1.view.x)
          / (mouseWheel 100 100 50 40 1 demoState).1.view.zoom
        = (50 - demoState.view.x) / demoState.view.zoom
      ∧ (40 - (mouseWheel 100 100 50 40 1 demoState).1.view.y)
          / (mouseWheel 100 100 50 40 1 demoState).1.view.zoom
        = (40 - demoState.view.y) / demoState.view.zoom) :=
  ⟨rfl, by norm_num [demoState],
   C4_wheel_zoom_fixed_point 100 100 50 40 1 demoState rfl (by norm_num [demoState])⟩

/-- C7: every segment painted on a pointer-move sample in highlight mode has
as endpoints the previous and current pointer positions converted to image
space by (c − offset)/zoom, and stroke width brushSize/zoom. -/
theorem C7_highlight_paint_segment (canvasW canvasH mouseX mouseY pmouseX pmouseY : ℚ)
    (s : SketchState) (L : HLayer)
    (himg : s.img.truthy = true)
    (hin : ¬ (mouseX < 0 ∨ mouseX > canvasW ∨ mouseY < 0 ∨ mouseY > canvasH))
    (hh : s.currentProps.highlighting = true)
    (hl : s.highlightLayer = some L) :
    mouseDragged canvasW canvasH mouseX mouseY pmouseX pmouseY s
      = { s with highlightLayer := some { L with strokes := L.strokes ++
            [{ fromX := (pmouseX - s.view.x) / s.view.zoom,
               fromY := (pmouseY - s.view.y) / s.view.zoom,
               toX := (mouseX - s.view.x) / s.view.zoom,
               toY := (mouseY - s.view.y) / s.view.zoom,
               color := s.currentProps.highlightColor,
               width := s.currentProps.brushSize / s.view.zoom }] } } := by
  have h1 : ¬ (¬ s.img.truthy = true
      ∨ mouseX < 0 ∨ mouseX > canvasW ∨ mouseY < 0 ∨ mouseY > canvasH) := by
    simp only [himg, not_true, false_or]
    exact hin
  have h2 : ¬ (s.isDragging = true ∧ ¬ s.currentProps.highlighting = true) := by
    simp [hh]
  unfold mouseDragged
  rw [if_neg h1, if_neg h2, hh, hl]

/-! State used by the highlighting witnesses: image loaded, highlight mode
active. -/

def highlightingState : SketchState :=
  { loadedState with
      currentProps := { loadedState.currentProps with highlighting := true } }

/-- C7 (witness): concrete pointer-move sample from (20, 25) to (30, 40) on
the highlighting demo state. -/
theorem C7_witness :
    highlightingState.img.truthy = true
    ∧ ¬ ((30:ℚ) < 0 ∨ (30:ℚ) > 100 ∨ (40:ℚ) < 0 ∨ (40:ℚ) > 100)
    ∧ highlightingState.currentProps.highlighting = true
    ∧ highlightingState.highlightLayer = some demoLayer
    ∧ mouseDragged 100 100 30 40 20 25 highlightingState
      = { highlightingState with highlightLayer := some { demoLayer with strokes :=
            demoLayer.strokes ++
            [{ fromX := (20 - highlightingState.view.x) / highlightingState.view.zoom,
               fromY := (25 - highlightingState.view.y) / highlightingState.view.zoom,
               toX := (30 - highlightingState.view.x) / highlightingState.view.zoom,
               toY := (40 - highlightingState.view.y) / highlightingState.view.zoom,
               color := highlightingState.currentProps.highlightColor,
               width := highlightingState.currentProps.brushSize
                 / highlightingState.view.zoom }] } } :=
  ⟨rfl, by norm_num, rfl, rfl,
   C7_highlight_paint_segment 100 100 30 40 20 25 highlightingState demoLayer rfl
     (by norm_num) rfl rfl⟩

/-- C8 (counterexample): a pointer-release event at (−5, −5) — outside the
bounds of any canvas — is not ignored: it changes the dragging flag.  The
release handler performs no bounds check. -/
theorem C8_counterexample :
    ((-5 : ℚ) < 0 ∨ (-5 : ℚ) > 100 ∨ (-5 : ℚ) < 0 ∨ (-5 : ℚ) > 100)
    ∧ (mouseReleased (-5) (-5) { demoState with isDragging := true }).isDragging
        ≠ ({ demoState with isDragging := true } : SketchState).isDragging := by
  refine ⟨Or.inl (by norm_num), ?_⟩
  simp [mouseReleased]

/-- C8 (amended): out-of-bounds pointer-press, pointer-drag and wheel events
are ignored (state unchanged, no callback); a pointer-release is processed
regardless of its coordinates and unconditionally clears the dragging flag
(changing nothing else and emitting no callback). -/
theorem C8_out_of_bounds_ignored (canvasW canvasH ex ey px py d : ℚ) (b : Bool)
    (s : SketchState)
    (hout : ex < 0 ∨ ex > canvasW ∨ ey < 0 ∨ ey > canvasH) :
    mousePressed canvasW canvasH ex ey b s = s
    ∧ mouseDragged canvasW canvasH ex ey px py s = s
    ∧ mouseWheel canvasW canvasH ex ey d s = (s, [])
    ∧ mouseReleased ex ey s = { s with isDragging := false } := by
  refine ⟨?_, ?_, ?_, rfl⟩
  · unfold mousePressed
    rw [if_pos hout]
  · unfold mouseDragged
    rw [if_pos (Or.inr hout)]
  · unfold mouseWheel
    rw [if_pos hout]

/-- C8 (amended, witness): concrete instance at (−5, −5) on a 100×100
canvas. -/
theorem C8_witness :
    ((-5 : ℚ) < 0 ∨ (-5 : ℚ) > 100 ∨ (-5 : ℚ) < 0 ∨ (-5 : ℚ) > 100)
    ∧ (mousePressed 100 100 (-5) (-5) true demoState = demoState
      ∧ mouseDragged 100 100 (-5) (-5) 3 4 demoState = demoState
      ∧ mouseWheel 100 100 (-5) (-5) 1 demoState = (demoState, [])
      ∧ mouseReleased (-5) (-5) demoState = { demoState with isDragging := false }) :=
  ⟨Or.inl (by norm_num),
   C8_out_of_bounds_ignored 100 100 (-5) (-5) 3 4 1 true demoState (Or.inl (by norm_num))⟩

/-- C10: an in-bounds wheel event while highlighting emits exactly one
onBrushSizeChange, with new size brushSize − 5 when deltaY > 0 and
brushSize + 5 when deltaY ≤ 0, without any clamping (so the emitted size can
be zero or negative), and leaves the state unchanged. -/
theorem C10_brush_size_wheel (canvasW canvasH x y deltaY : ℚ) (s : SketchState)
    (hin : ¬ (x < 0 ∨ x > canvasW ∨ y < 0 ∨ y > canvasH))
    (hh : s.currentProps.highlighting = true) :
    (deltaY > 0 →
      mouseWheel canvasW canvasH x y deltaY s
        = (s, [Event.brushSizeChange (s.currentProps.brushSize - 5)]))
    ∧ (deltaY ≤ 0 →
      mouseWheel canvasW canvasH x y deltaY s
        = (s, [Event.brushSizeChange (s.currentProps.brushSize + 5)])) := by
  unfold mouseWheel
  rw [if_neg hin]
  constructor <;> intro hd
  · rw [if_pos hd]
    simp only [hh, if_true]
    norm_num
    ring
  · rw [if_neg (not_lt.mpr hd)]
    simp only [hh, if_true]
    norm_num

/-- C10 (witness): wheel with deltaY = 1 at (50, 40) in highlight mode with
brush size 40. -/
theorem C10_witness :
    ¬ ((50:ℚ) < 0 ∨ (50:ℚ) > 100 ∨ (40:ℚ) < 0 ∨ (40:ℚ) > 100)
    ∧ highlightingState.currentProps.highlighting = true
    ∧ (((1:ℚ) > 0 →
        mouseWheel 100 100 50 40 1 highlightingState
          = (highlightingState,
             [Event.brushSizeChange (highlightingState.currentProps.brushSize - 5)]))
      ∧ ((1:ℚ) ≤ 0 →
        mouseWheel 100 100 50 40 1 highlightingState
          = (highlightingState,
             [Event.brushSizeChange (highlightingState.currentProps.brushSize + 5)]))) :=
  ⟨by norm_num, rfl,
   C10_brush_size_wheel 100 100 50 40 1 highlightingState (by norm_num) rfl⟩

/-- On a false→true edge of the generation trigger, `updateWithProps` emits
no synchronous event when a highlight layer and a truthy full-resolution URL
are present (the trigger is consumed by the load callbacks), and emits
exactly one trigger-consumed event otherwise. -/
theorem update_events_edge (s : SketchState) (newProps : Props)
    (hedge : newProps.generationTrigger = true)
    (hprev : s.currentProps.generationTrigger = false) :
    (updateWithProps s newProps).events
      = if s.highlightLayer.isSome = true ∧ strTruthy newProps.fullResImgUrl = true
        then [] else [Event.triggerConsumed] := by
  unfold updateWithProps
  simp only [hedge, hprev]
  split_ifs <;> simp_all [Option.isSome_map']

/-- On a trigger edge with a highlight layer and a truthy full-resolution
URL, `updateWithProps` starts the full-resolution load. -/
theorem update_requests_edge (s : SketchState) (newProps : Props)
    (hedge : newProps.generationTrigger = true)
    (hprev : s.currentProps.generationTrigger = false)
    (hlayer : s.highlightLayer.isSome = true)
    (hfull : strTruthy newProps.fullResImgUrl = true) :
    Request.fullResLoad (newProps.fullResImgUrl.getD "")
      ∈ (updateWithProps s newProps).requests := by
  unfold updateWithProps
  simp only [hedge, hprev]
  split_ifs <;> simp_all [Option.isSome_map']

/-! A state reached by loading an image and then removing the display URL
(tsx 55–58): `img` is dropped but the highlight layer survives, cleared. -/

def imgRemovedState : SketchState := (updateWithProps loadedState demoProps).state

/-- Props carrying a trigger edge with no display image but a truthy
full-resolution URL. -/
def fullResOnlyTrigProps : Props :=
  { demoProps with fullResImgUrl := some "full.png", generationTrigger := true }

/-- C1 (counterexample): with no DocumentImage loaded — the display image was
removed, leaving `img` undefined but the cleared highlight layer alive — a
trigger edge with a truthy `fullResImgUrl` does not take the immediate-consume
path: it starts the full-resolution load, and on load success the artifact-ready
callback fires.  So the artifact-ready callback can be invoked on a trigger
with no image loaded, refuting the claim as stated. -/
theorem C1_counterexample :
    imgRemovedState.img = ImgState.undef
    ∧ imgRemovedState.highlightLayer = some demoLayer
    ∧ fullResOnlyTrigProps.generationTrigger = true
    ∧ imgRemovedState.currentProps.generationTrigger = false
    ∧ (updateWithProps imgRemovedState fullResOnlyTrigProps).events = []
    ∧ (updateWithProps imgRemovedState fullResOnlyTrigProps).requests
        = [Request.fullResLoad "full.png"]
    ∧ fullResLoadSuccess demoEncode demoLayer demoFullRes
        = [Event.compositeReady (some "iVBORw0KGgo"), Event.triggerConsumed]
    ∧ countReady (fullResLoadSuccess demoEncode demoLayer demoFullRes) = 1 := by
  refine ⟨rfl, rfl, rfl, rfl, rfl, rfl, ?_, ?_⟩ <;> rfl

/-- C1 (amended): on every false→true trigger edge, exactly one
trigger-consumed invocation occurs on each path — immediately when no
highlight layer or no truthy full-resolution URL is available, and once
inside the load callback on both the success and the failure path — and the
artifact-ready callback is never invoked on the immediate-consume or
load-failure paths.  (Having no DocumentImage loaded does not by itself force
the immediate path: a surviving highlight layer plus a truthy full-resolution
URL takes the composite path, as the counterexample shows.) -/
theorem C1_trigger_consumed_exactly_once (s : SketchState) (newProps : Props)
    (encode : Composite → String) (layerAtCompletion : HLayer) (fullResImage : Raster)
    (hedge : newProps.generationTrigger = true)
    (hprev : s.currentProps.generationTrigger = false) :
    (¬ (s.highlightLayer.isSome = true ∧ strTruthy newProps.fullResImgUrl = true) →
      countConsumed (updateWithProps s newProps).events = 1
      ∧ countReady (updateWithProps s newProps).events = 0)
    ∧ ((s.highlightLayer.isSome = true ∧ strTruthy newProps.fullResImgUrl = true) →
      countConsumed (updateWithProps s newProps).events = 0
      ∧ countReady (updateWithProps s newProps).events = 0
      ∧ countConsumed (fullResLoadSuccess encode layerAtCompletion fullResImage) = 1
      ∧ countConsumed fullResLoadFailure = 1
      ∧ countReady fullResLoadFailure = 0) := by
  rw [update_events_edge s newProps hedge hprev]
  constructor <;> intro h
  · rw [if_neg h]
    simp [countConsumed, countReady, Event.isConsumed, Event.isReady]
  · rw [if_pos h]
    simp [countConsumed, countReady, Event.isConsumed, Event.isReady,
      fullResLoadSuccess, fullResLoadFailure]

/-- C1 (witness): concrete trigger edge on the demo state, where no image
was ever loaded. -/
theorem C1_witness :
    trigProps.generationTrigger = true
    ∧ demoState.currentProps.generationTrigger = false
    ∧ ((¬ (demoState.highlightLayer.isSome = true ∧ strTruthy trigProps.fullResImgUrl = true) →
        countConsumed (updateWithProps demoState trigProps).events = 1
        ∧ countReady (updateWithProps demoState trigProps).events = 0)
      ∧ ((demoState.highlightLayer.isSome = true ∧ strTruthy trigProps.fullResImgUrl = true) →
        countConsumed (updateWithProps demoState trigProps).events = 0
        ∧ countReady (updateWithProps demoState trigProps).events = 0
        ∧ countConsumed (fullResLoadSuccess demoEncode demoLayer demoFullRes) = 1
        ∧ countConsumed fullResLoadFailure = 1
        ∧ countReady fullResLoadFailure = 0)) :=
  ⟨rfl, rfl,
   C1_trigger_consumed_exactly_once demoState trigProps demoEncode demoLayer demoFullRes
     rfl rfl⟩

/-! Props for a trigger edge with a display image but a null full-resolution
URL. -/

def noFullResTrigProps : Props :=
  { demoProps with displayImgUrl := some "doc.png", generationTrigger := true }

/-- C2 (counterexample): a trigger edge with a DocumentImage loaded and a
HighlightLayer present, but `fullResImgUrl` null, invokes zero artifact-ready
callbacks (the trigger is merely consumed and no load is started), so a
loaded image and a highlight layer alone do not make the compositor produce
an artifact. -/
theorem C2_counterexample :
    loadedState.img = ImgState.loaded { width := 800, height := 600 }
    ∧ loadedState.highlightLayer.isSome = true
    ∧ noFullResTrigProps.generationTrigger = true
    ∧ loadedState.currentProps.generationTrigger = false
    ∧ (updateWithProps loadedState noFullResTrigProps).events = [Event.triggerConsumed]
    ∧ countReady (updateWithProps loadedState noFullResTrigProps).events = 0
    ∧ (updateWithProps loadedState noFullResTrigProps).requests = [] :=
  ⟨rfl, rfl, rfl, rfl, rfl, rfl, rfl⟩

/-- C2 (amended): on a trigger edge with a highlight layer present and a
truthy full-resolution URL, when the full-resolution load succeeds and the
browser encoder yields a well-formed PNG data URL, the compositor emits
exactly one artifact-ready callback carrying the base64 payload (the data-URI
prefix stripped, non-empty) followed by exactly one trigger-consumed
callback; the synchronous part of the update emits nothing and starts the
load. -/
theorem C2_composite_success (s : SketchState) (newProps : Props)
    (encode : Composite → String) (layerAtCompletion : HLayer) (fullResImage : Raster)
    (b64 : String)
    (hedge : newProps.generationTrigger = true)
    (hprev : s.currentProps.generationTrigger = false)
    (hlayer : s.highlightLayer.isSome = true)
    (hfull : strTruthy newProps.fullResImgUrl = true)
    (hencode : encode { width := fullResImage.width,
                        height := fullResImage.height,
                        base := fullResImage,
                        overlay := layerAtCompletion,
                        tintAlpha := 128 }
      = "data:image/png;base64," ++ b64)
    (hcomma : ',' ∉ b64.data)
    (hne : b64 ≠ "") :
    (updateWithProps s newProps).events = []
    ∧ Request.fullResLoad (newProps.fullResImgUrl.getD "")
        ∈ (updateWithProps s newProps).requests
    ∧ fullResLoadSuccess encode layerAtCompletion fullResImage
        = [Event.compositeReady (some b64), Event.triggerConsumed]
    ∧ b64 ≠ "" := by
  refine ⟨?_, update_requests_edge s newProps hedge hprev hlayer hfull, ?_, hne⟩
  · rw [update_events_edge s newProps hedge hprev, if_pos ⟨hlayer, hfull⟩]
  · simp only [fullResLoadSuccess]
    rw [hencode, jsSplitComma_dataUrl hcomma]
    rfl

/-! Props for a trigger edge supplying both image URLs. -/

def fullTrigProps : Props :=
  { demoProps with displayImgUrl := some "doc.png",
                   fullResImgUrl := some "full.png",
                   generationTrigger := true }

/-- C2 (amended, witness): concrete trigger edge on the loaded demo state
with a concrete encoder output. -/
theorem C2_witness :
    fullTrigProps.generationTrigger = true
    ∧ loadedState.currentProps.generationTrigger = false
    ∧ loadedState.highlightLayer.isSome = true
    ∧ strTruthy fullTrigProps.fullResImgUrl = true
    ∧ demoEncode { width := demoFullRes.width,
                   height := demoFullRes.height,
                   base := demoFullRes,
                   overlay := demoLayer,
                   tintAlpha := 128 }
      = "data:image/png;base64," ++ "iVBORw0KGgo"
    ∧ ',' ∉ "iVBORw0KGgo".data
    ∧ "iVBORw0KGgo" ≠ ""
    ∧ ((updateWithProps loadedState fullTrigProps).events = []
      ∧ Request.fullResLoad (fullTrigProps.fullResImgUrl.getD "")
          ∈ (updateWithProps loadedState fullTrigProps).requests
      ∧ fullResLoadSuccess demoEncode demoLayer demoFullRes
          = [Event.compositeReady (some "iVBORw0KGgo"), Event.triggerConsumed]
      ∧ "iVBORw0KGgo" ≠ "") :=
  ⟨rfl, rfl, rfl, rfl, rfl, by decide, by decide,
   C2_composite_success loadedState fullTrigProps demoEncode demoLayer demoFullRes
     "iVBORw0KGgo" rfl rfl rfl rfl rfl (by decide) (by decide)⟩

/-- C9: a trigger edge while a highlight layer exists but `fullResImgUrl` is
null results in exactly one trigger-consumed event, no artifact-ready event
and no full-resolution load — even when a display image is loaded, no
composite is produced from the display raster alone. -/
theorem C9_null_fullres_no_composite (s : SketchState) (newProps : Props)
    (hedge : newProps.generationTrigger = true)
    (hprev : s.currentProps.generationTrigger = false)
    (hlayer : s.highlightLayer.isSome = true)
    (hfull : newProps.fullResImgUrl = none) :
    (updateWithProps s newProps).events = [Event.triggerConsumed]
    ∧ countReady (updateWithProps s newProps).events = 0
    ∧ ∀ url, Request.fullResLoad url ∉ (updateWithProps s newProps).requests := by
  have hev : (updateWithProps s newProps).events = [Event.triggerConsumed] := by
    rw [update_events_edge s newProps hedge hprev, if_neg]
    rintro ⟨-, hst⟩
    rw [hfull] at hst
    exact absurd hst (by simp [strTruthy])
  refine ⟨hev, ?_, ?_⟩
  · rw [hev]
    simp [countReady, Event.isReady]
  · intro url
    unfold updateWithProps
    simp only [hedge, hprev, hfull]
    split_ifs <;> simp_all [strTruthy]

/-- C9 (witness): concrete trigger edge on the loaded demo state with a null
full-resolution URL. -/
theorem C9_witness :
    noFullResTrigProps.generationTrigger = true
    ∧ loadedState.currentProps.generationTrigger = false
    ∧ loadedState.highlightLayer.isSome = true
    ∧ noFullResTrigProps.fullResImgUrl = none
    ∧ ((updateWithProps loadedState noFullResTrigProps).events = [Event.triggerConsumed]
      ∧ countReady (updateWithProps loadedState noFullResTrigProps).events = 0
      ∧ ∀ url, Request.fullResLoad url
          ∉ (updateWithProps loadedState noFullResTrigProps).requests) :=
  ⟨rfl, rfl, rfl, rfl,
   C9_null_fullres_no_composite loadedState noFullResTrigProps rfl rfl rfl rfl⟩

end DocBanana
